import Mathlib

/-!
Verification of the Drongo video-processing pipeline (`src/Video_processing.py`)
against its natural-language specification.

The single source file is shallowly embedded here:

* `Frame` models a decoded image (a 2D pixel grid with a channel layout);
  pixel data is a total function `row → col → channel → Nat` holding 8-bit
  intensities.
* The OpenCV primitives that `process_frame` invokes (`cv2.resize` with
  INTER_CUBIC, `cv2.cvtColor` BGR2GRAY / BGR2HLS / BGR2HSV,
  `cv2.adaptiveThreshold` (ADAPTIVE_THRESH_MEAN_C, THRESH_BINARY_INV, 11, 2),
  `cv2.Laplacian` + `cv2.convertScaleAbs`, `cv2.GaussianBlur` (5,5),
  `cv2.equalizeHist`) are modelled from their OpenCV semantics at the exact
  parameter values the source passes.  Intermediate arithmetic is exact
  (`ℚ` / `Int`) followed by OpenCV's round-half-to-even and saturation to
  `[0, 255]`, mirroring the library's documented numeric behaviour.
* `process_frame` itself mirrors lines 54–100 of the source, returning the
  result dictionary as an association list in source order; conversions that
  OpenCV rejects (wrong channel count) make it return `none`, modelling the
  raised error.
* `check_video_file` and `main` (the orchestrator loop) are modelled as a
  state/trace machine over an environment that supplies the decoded frames,
  the user-interrupt schedule, and a fault-injection schedule for the
  external library calls.
-/

/-- OpenCV `cvRound`: round half to even (banker's rounding), exact on `ℚ`. -/
def cvRound (q : ℚ) : Int :=
  let fl := ⌊q⌋
  let fr := q - fl
  if fr < 1/2 then fl
  else if 1/2 < fr then fl + 1
  else if fl % 2 = 0 then fl else fl + 1

/-- OpenCV `saturate_cast<uchar>` on an integer: clamp into `[0, 255]`. -/
def satUChar (v : Int) : Nat := (min (max v 0) 255).toNat

/-- A decoded image: `data r c ch` is the 8-bit intensity at row `r`,
column `c`, channel `ch` (BGR order for 3-channel frames). -/
structure Frame where
  width : Nat
  height : Nat
  channels : Nat
  data : Nat → Nat → Nat → Nat

/-- Border handling `BORDER_REPLICATE`: clamp an index into `[0, n-1]`. -/
def clampIdx (n : Nat) (p : Int) : Nat :=
  if p < 0 then 0 else if (n : Int) ≤ p then n - 1 else p.toNat

/-- Border handling `BORDER_REFLECT_101` (OpenCV's default border) for the
small offsets (at most 2) used by the 3×3 / 5×5 kernels below. -/
def reflect101 (n : Nat) (p : Int) : Nat :=
  if p < 0 then (-p).toNat else if (n : Int) ≤ p then (2 * ((n : Int) - 1) - p).toNat else p.toNat

/-- The four bicubic convolution weights OpenCV uses for `INTER_CUBIC`
(Keys kernel with `A = -0.75`), at fractional offset `x`. -/
def cubicWeights (x : ℚ) : List ℚ :=
  let A : ℚ := -3/4
  let c0 := ((A * (x + 1) - 5 * A) * (x + 1) + 8 * A) * (x + 1) - 4 * A
  let c1 := ((A + 2) * x - (A + 3)) * x * x + 1
  let c2 := ((A + 2) * (1 - x) - (A + 3)) * (1 - x) * (1 - x) + 1
  [c0, c1, c2, 1 - c0 - c1 - c2]

/-- `cv2.resize(frame, (dw, dh), interpolation=cv2.INTER_CUBIC)`:
inverse-map each destination pixel to source coordinates, take the 4×4
bicubic weighted sum (replicated border), round and saturate. -/
def resize (f : Frame) (dw dh : Nat) : Frame :=
  { width := dw, height := dh, channels := f.channels,
    data := fun r c ch =>
      let sy : ℚ := ((r : ℚ) + 1/2) * f.height / dh - 1/2
      let sx : ℚ := ((c : ℚ) + 1/2) * f.width / dw - 1/2
      let iy : Int := ⌊sy⌋
      let ix : Int := ⌊sx⌋
      let wy := cubicWeights (sy - iy)
      let wx := cubicWeights (sx - ix)
      let v : ℚ :=
        ((List.range 4).map (fun j =>
          wy.getD j 0 *
            ((List.range 4).map (fun i =>
              wx.getD i 0 *
                (f.data (clampIdx f.height (iy - 1 + j)) (clampIdx f.width (ix - 1 + i)) ch : ℚ))).sum)).sum
      satUChar (cvRound v) }

/-- OpenCV's fixed-point BGR→gray luma formula
(`Y = (B*1868 + G*9617 + R*4899 + 2^13) >> 14`, coefficients 0.114/0.587/0.299). -/
def bgr2grayVal (b g r : Nat) : Nat :=
  (b * 1868 + g * 9617 + r * 4899 + 8192) / 16384

/-- The gray frame produced by `cv2.cvtColor(f, cv2.COLOR_BGR2GRAY)` on a
frame with an accepted channel count. -/
def mkGray (f : Frame) : Frame :=
  { width := f.width, height := f.height, channels := 1,
    data := fun r c _ => bgr2grayVal (f.data r c 0) (f.data r c 1) (f.data r c 2) }

/-- Hue in degrees (0–360) of a BGR pixel, as in the OpenCV color-conversion
documentation; 0 when the pixel is achromatic (max = min). -/
def hueOf (b g r : Nat) : ℚ :=
  let bq : ℚ := b
  let gq : ℚ := g
  let rq : ℚ := r
  let mx := max bq (max gq rq)
  let mn := min bq (min gq rq)
  let d := mx - mn
  let h0 : ℚ :=
    if d = 0 then 0
    else if mx = rq then 60 * (gq - bq) / d
    else if mx = gq then 120 + 60 * (bq - rq) / d
    else 240 + 60 * (rq - gq) / d
  if h0 < 0 then h0 + 360 else h0

/-- One pixel of `cv2.cvtColor(·, cv2.COLOR_BGR2HSV)` for 8-bit images
(documented formulas: `V ← max`, `S ← 255·(max−min)/max`, `H ← hue/2`). -/
def hsvOfPixel (b g r : Nat) : Nat × Nat × Nat :=
  let bq : ℚ := b
  let gq : ℚ := g
  let rq : ℚ := r
  let mx := max bq (max gq rq)
  let mn := min bq (min gq rq)
  let s : ℚ := if mx = 0 then 0 else 255 * (mx - mn) / mx
  (satUChar (cvRound (hueOf b g r / 2)), satUChar (cvRound s), satUChar (cvRound mx))

/-- One pixel of `cv2.cvtColor(·, cv2.COLOR_BGR2HLS)` for 8-bit images
(documented formulas: `L ← (max+min)/2`, `S` by the lightness-split rule,
`H ← hue/2`). -/
def hlsOfPixel (b g r : Nat) : Nat × Nat × Nat :=
  let bq : ℚ := b
  let gq : ℚ := g
  let rq : ℚ := r
  let mx := max bq (max gq rq)
  let mn := min bq (min gq rq)
  let d := mx - mn
  let l : ℚ := (mx + mn) / 2
  let s : ℚ :=
    if d = 0 then 0
    else if mx + mn < 255 then 255 * d / (mx + mn)
    else 255 * d / (510 - (mx + mn))
  (satUChar (cvRound (hueOf b g r / 2)), satUChar (cvRound l), satUChar (cvRound s))

/-- The HLS frame produced by `cv2.cvtColor(f, cv2.COLOR_BGR2HLS)`. -/
def mkHLS (f : Frame) : Frame :=
  { width := f.width, height := f.height, channels := 3,
    data := fun r c ch =>
      let p := hlsOfPixel (f.data r c 0) (f.data r c 1) (f.data r c 2)
      if ch = 0 then p.1 else if ch = 1 then p.2.1 else p.2.2 }

/-- The HSV frame produced by `cv2.cvtColor(f, cv2.COLOR_BGR2HSV)`. -/
def mkHSV (f : Frame) : Frame :=
  { width := f.width, height := f.height, channels := 3,
    data := fun r c ch =>
      let p := hsvOfPixel (f.data r c 0) (f.data r c 1) (f.data r c 2)
      if ch = 0 then p.1 else if ch = 1 then p.2.1 else p.2.2 }

/-- `cv2.cvtColor(f, cv2.COLOR_BGR2GRAY)`: OpenCV accepts 3- or 4-channel
input and raises otherwise; the raise is modelled as `none`. -/
def cvtColorBGR2GRAY (f : Frame) : Option Frame :=
  if f.channels = 3 ∨ f.channels = 4 then some (mkGray f) else none

/-- `cv2.cvtColor(f, cv2.COLOR_BGR2HLS)`, with the same channel-count check. -/
def cvtColorBGR2HLS (f : Frame) : Option Frame :=
  if f.channels = 3 ∨ f.channels = 4 then some (mkHLS f) else none

/-- `cv2.cvtColor(f, cv2.COLOR_BGR2HSV)`, with the same channel-count check. -/
def cvtColorBGR2HSV (f : Frame) : Option Frame :=
  if f.channels = 3 ∨ f.channels = 4 then some (mkHSV f) else none

/-- The normalized 11×11 box-filter mean (`BORDER_REPLICATE`) OpenCV computes
inside `adaptiveThreshold` with `ADAPTIVE_THRESH_MEAN_C` and block size 11. -/
def boxMean11 (g : Frame) (r c : Nat) : Nat :=
  let s : Nat :=
    ((List.range 11).map (fun j =>
      ((List.range 11).map (fun i =>
        g.data (clampIdx g.height ((r : Int) + j - 5)) (clampIdx g.width ((c : Int) + i - 5)) 0)).sum)).sum
  satUChar (cvRound ((s : ℚ) / 121))

/-- `cv2.adaptiveThreshold(g, 255, cv2.ADAPTIVE_THRESH_MEAN_C,
cv2.THRESH_BINARY_INV, 11, 2)`: a pixel becomes 255 exactly when
`src ≤ mean − 2` (OpenCV's table is `dst = maxval` iff `src - mean ≤ -C`),
else 0. -/
def adaptiveThreshMeanInv (g : Frame) : Frame :=
  { g with data := fun r c _ =>
      if (g.data r c 0 : Int) ≤ (boxMean11 g r c : Int) - 2 then 255 else 0 }

/-- The exact `CV_64F` Laplacian response at a pixel for the default
aperture (`ksize = 1`, kernel `[[0,1,0],[1,-4,1],[0,1,0]]`,
`BORDER_REFLECT_101`); integer-valued, so `Int` is exact here. -/
def laplacianVal (g : Frame) (r c : Nat) : Int :=
  (g.data (reflect101 g.height ((r : Int) - 1)) c 0 : Int)
    + (g.data (reflect101 g.height ((r : Int) + 1)) c 0 : Int)
    + (g.data r (reflect101 g.width ((c : Int) - 1)) 0 : Int)
    + (g.data r (reflect101 g.width ((c : Int) + 1)) 0 : Int)
    - 4 * (g.data r c 0 : Int)

/-- `cv2.convertScaleAbs(cv2.Laplacian(g, cv2.CV_64F))`: absolute value of
the Laplacian response saturated to 8 bits. -/
def laplacianAbs (g : Frame) : Frame :=
  { g with data := fun r c _ => satUChar ((laplacianVal g r c).natAbs : Int) }

/-- The fixed 5-tap kernel `[1,4,6,4,1]/16` OpenCV uses for
`GaussianBlur(·, (5,5), 0)` (sigma 0 selects the small fixed kernel). -/
def gaussK : List Nat := [1, 4, 6, 4, 1]

/-- `cv2.GaussianBlur(g, (5, 5), 0)`: separable 5×5 smoothing with
`BORDER_REFLECT_101`, rounded back to 8 bits. -/
def gaussianBlur5 (g : Frame) : Frame :=
  { g with data := fun r c _ =>
      let s : Nat :=
        ((List.range 5).map (fun j =>
          gaussK.getD j 0 *
            ((List.range 5).map (fun i =>
              gaussK.getD i 0 *
                g.data (reflect101 g.height ((r : Int) + j - 2)) (reflect101 g.width ((c : Int) + i - 2)) 0)).sum)).sum
      satUChar (cvRound ((s : ℚ) / 256)) }

/-- Number of pixels of a (single-channel) frame with intensity `v`. -/
def histCount (g : Frame) (v : Nat) : Nat :=
  ((List.range g.height).map (fun r =>
    ((List.range g.width).filter (fun c => g.data r c 0 == v)).length)).sum

/-- The first populated histogram bin, as scanned by OpenCV's
`equalizeHist` (`while (!hist[i]) ++i`). -/
def firstNonzeroBin (g : Frame) : Nat :=
  (((List.range 256).find? (fun v => histCount g v != 0)).getD 0)

/-- The `equalizeHist` lookup table for the non-constant case: cumulative
histogram above the first populated bin, scaled by `255/(total - hist[i])`
and saturated, exactly as in OpenCV's implementation. -/
def equalizeLut (g : Frame) (j : Nat) : Nat :=
  let total := g.width * g.height
  let i := firstNonzeroBin g
  if j ≤ i then 0
  else
    let csum := ((List.range (j - i)).map (fun k => histCount g (i + 1 + k))).sum
    satUChar (cvRound ((255 : ℚ) * csum / ((total - histCount g i : Nat) : ℚ)))

/-- `cv2.equalizeHist(g)`: when one bin holds every pixel (a constant image)
OpenCV short-circuits to the constant image at that intensity; otherwise it
maps each pixel through the cumulative-histogram lookup table. -/
def equalizeHist (g : Frame) : Frame :=
  if histCount g (firstNonzeroBin g) = g.width * g.height then
    { g with data := fun _ _ _ => firstNonzeroBin g }
  else
    { g with data := fun r c _ => equalizeLut g (g.data r c 0) }

/-- The eight dictionary keys returned by `process_frame`, in source order. -/
def transformNames : List String :=
  ["original", "gray", "hls", "hsv", "thresh", "laplacian", "blur", "equalized"]

/-- The association list `process_frame` returns on its successful path,
with each value the modelled OpenCV result (source lines 91–100). -/
def transformList (f : Frame) (target : Nat × Nat) : List (String × Frame) :=
  let resized := resize f target.1 target.2
  let gray := mkGray resized
  [("original", resized), ("gray", gray), ("hls", mkHLS resized), ("hsv", mkHSV resized),
   ("thresh", adaptiveThreshMeanInv gray), ("laplacian", laplacianAbs gray),
   ("blur", gaussianBlur5 gray), ("equalized", equalizeHist gray)]

/-- `process_frame(frame, target_size=(540, 380))` (source lines 54–100):
resize, convert to gray/HLS/HSV, threshold, edge-detect, blur and equalize,
returning the dictionary of the eight named results; `none` models the error
OpenCV raises when a colorspace conversion gets an invalid channel count. -/
def process_frame (frame : Frame) (target : Nat × Nat) : Option (List (String × Frame)) :=
  let resized := resize frame target.1 target.2
  match cvtColorBGR2GRAY resized, cvtColorBGR2HLS resized, cvtColorBGR2HSV resized with
  | some _, some _, some _ => some (transformList frame target)
  | _, _, _ => none

/-- Looks up one named output of `process_frame` (used to state the
per-output claims). -/
def outputFrame (f : Frame) (t : Nat × Nat) (k : String) : Option Frame :=
  match process_frame f t with
  | some d => d.lookup k
  | none => none

/-- Line 160 of the source:
`current_fps = frame_count / elapsed_time if elapsed_time > 0 else 0`. -/
def currentFps (frameCount : Nat) (elapsed : ℚ) : ℚ :=
  if 0 < elapsed then (frameCount : ℚ) / elapsed else 0

/-- Observable effects of `check_video_file` (source lines 17–34): its
boolean result, whether the probe `VideoCapture` was constructed, and
whether it was released. -/
structure ProbeResult where
  result : Bool
  probeOpened : Bool
  probeReleased : Bool
deriving DecidableEq

/-- `check_video_file(video_path)`: returns `False` when the path is
missing (no probe constructed); constructs a probe capture otherwise,
returning `False` without releasing it when it fails to open, and releasing
it before returning `True` when it opens. -/
def check_video_file (pathExists opensOk : Bool) : ProbeResult :=
  if pathExists then
    if opensOk then
      { result := true, probeOpened := true, probeReleased := true }
    else
      { result := false, probeOpened := true, probeReleased := false }
  else
    { result := false, probeOpened := false, probeReleased := false }

/-- The external-library call sites inside the loop body at which an
unhandled fault can be thrown. -/
inductive Stage where
  | decode
  | transform
  | annotate
  | display
  | encode
deriving DecidableEq

/-- Observable steps of one run of `main`, in program order. -/
inductive Event where
  | decodeFrame (i : Nat)
  | endOfStream
  | incCounter (i : Nat)
  | transformFrame (i : Nat)
  | statsUpdate (i : Nat)
  | annotateFrame (i : Nat)
  | displayFrame (name : String) (i : Nat)
  | encodeWrite (i : Nat)
  | interruptCheck (i : Nat)
  | userInterrupt (i : Nat)
  | libraryFault (i : Nat) (s : Stage)
deriving DecidableEq

/-- Environment of one run: input-validation outcomes, the decoder's frame
sequence, whether `waitKey` reports the `q` key after frame `i`, and
whether an external call throws at frame `i` (and at which stage). -/
structure Env where
  pathExists : Bool
  opensOk : Bool
  frames : List Frame
  interruptAt : Nat → Bool
  faultAt : Nat → Option Stage

/-- Terminal status of a run of `main`. -/
inductive Outcome where
  | aborted
  | completed
  | interrupted
  | failed
deriving DecidableEq

/-- Result of the per-frame loop: terminal status, final `frame_count`,
number of frames written to the encoder, and the emitted event trace. -/
structure LoopOut where
  outcome : Outcome
  frameCount : Nat
  written : Nat
  trace : List Event

/-- The events of one fault-free loop iteration on frame `i`, in the order
the source performs them (lines 146–201): read, `frame_count += 1`,
`process_frame`, FPS computation, the two `putText` overlays, the eight
`imshow` calls in source order, `out.write`, and the `waitKey` poll. -/
def iterEvents (i : Nat) : List Event :=
  [Event.decodeFrame i, Event.incCounter i, Event.transformFrame i,
   Event.statsUpdate i, Event.annotateFrame i]
  ++ transformNames.map (fun n => Event.displayFrame n i)
  ++ [Event.encodeWrite i, Event.interruptCheck i]

/-- The events of an iteration cut short by a fault at stage `s`: the steps
preceding the faulting call, then the fault. -/
def faultEvents (i : Nat) : Stage → List Event
  | Stage.decode => [Event.libraryFault i Stage.decode]
  | Stage.transform =>
      [Event.decodeFrame i, Event.incCounter i, Event.libraryFault i Stage.transform]
  | Stage.annotate =>
      [Event.decodeFrame i, Event.incCounter i, Event.transformFrame i,
       Event.statsUpdate i, Event.libraryFault i Stage.annotate]
  | Stage.display =>
      [Event.decodeFrame i, Event.incCounter i, Event.transformFrame i,
       Event.statsUpdate i, Event.annotateFrame i, Event.libraryFault i Stage.display]
  | Stage.encode =>
      [Event.decodeFrame i, Event.incCounter i, Event.transformFrame i,
       Event.statsUpdate i, Event.annotateFrame i]
      ++ transformNames.map (fun n => Event.displayFrame n i)
      ++ [Event.libraryFault i Stage.encode]

/-- `frame_count` increase of a faulting iteration: a decode fault throws
before the `frame_count += 1` line, every later stage throws after it. -/
def faultCount : Stage → Nat
  | Stage.decode => 0
  | _ => 1

/-- The `while cap.isOpened()` loop (source lines 146–201), driven by the
remaining frames: end-of-stream breaks with `completed`; a scheduled fault
ends the run `failed` after the steps preceding it; a `q` key after the
write breaks with `interrupted`; otherwise the iteration writes one frame
and continues. -/
def runLoop (env : Env) : List Frame → Nat → Nat → LoopOut
  | [], count, written =>
      { outcome := Outcome.completed, frameCount := count, written := written,
        trace := [Event.endOfStream] }
  | _f :: rest, count, written =>
      let i := count + 1
      match env.faultAt i with
      | some s =>
          { outcome := Outcome.failed, frameCount := count + faultCount s,
            written := written, trace := faultEvents i s }
      | none =>
          if env.interruptAt i then
            { outcome := Outcome.interrupted, frameCount := i, written := written + 1,
              trace := iterEvents i ++ [Event.userInterrupt i] }
          else
            let res := runLoop env rest i (written + 1)
            { outcome := res.outcome, frameCount := res.frameCount,
              written := res.written, trace := iterEvents i ++ res.trace }

/-- Observable result of one invocation of the program (`main` wrapped in
the `__main__` try/except of lines 213–218). -/
structure RunResult where
  outcome : Outcome
  frameCount : Nat
  written : Nat
  writerOpened : Bool
  capReleased : Bool
  writerReleased : Bool
  windowsDestroyed : Bool
  errorPrinted : Bool
  trace : List Event

/-- `main()` (source lines 103–210) under the top-level handler: failed
validation prints an error and returns before any writer is opened; a
validated run opens the writer and enters the loop; the release calls at
lines 204–206 run only when the loop exits by `break` or end-of-stream — an
exception thrown inside the loop propagates past them to the `except`
block, which logs and prints but releases nothing. -/
def runMain (env : Env) : RunResult :=
  if (check_video_file env.pathExists env.opensOk).result then
    let res := runLoop env env.frames 0 0
    match res.outcome with
    | Outcome.failed =>
        { outcome := Outcome.failed, frameCount := res.frameCount,
          written := res.written, writerOpened := true, capReleased := false,
          writerReleased := false, windowsDestroyed := false,
          errorPrinted := true, trace := res.trace }
    | oc =>
        { outcome := oc, frameCount := res.frameCount, written := res.written,
          writerOpened := true, capReleased := true, writerReleased := true,
          windowsDestroyed := true, errorPrinted := false, trace := res.trace }
  else
    { outcome := Outcome.aborted, frameCount := 0, written := 0,
      writerOpened := false, capReleased := false, writerReleased := false,
      windowsDestroyed := false, errorPrinted := true, trace := [] }

/-- `cv2.putText` on a frame, with the rendered glyph raster abstracted as
the pixel set `mask`: masked in-bounds pixels take the BGR `color`, all
other pixels keep their value.  No claim constrains the raster itself, only
which frames the overlay touches. -/
def putText (mask : Nat → Nat → Bool) (color : Nat × Nat × Nat) (f : Frame) : Frame :=
  { f with data := fun r c ch =>
      if mask r c ∧ r < f.height ∧ c < f.width then
        (if ch = 0 then color.1 else if ch = 1 then color.2.1 else color.2.2)
      else f.data r c ch }

/-- The annotation step of the loop body (source lines 163–180): the two
green `putText` overlays applied to the array behind the dictionary's
`'original'` key.  Every other key keeps its own (distinct, freshly
allocated) array, so only the `'original'` entry changes. -/
def annotate_original (m1 m2 : Nat → Nat → Bool) (d : List (String × Frame)) :
    List (String × Frame) :=
  d.map (fun p =>
    if p.1 = "original" then (p.1, putText m2 (0, 255, 0) (putText m1 (0, 255, 0) p.2))
    else p)

/-- A per-iteration event block written directly from the specification's
sentence: "decode next frame; increment frame counter; run
TransformPipeline; update StatsTracker; run Annotator on the `original`
output only; dispatch all named outputs to DisplaySink; write the annotated
`original` output to the encoder; check DisplaySink for a user interrupt
signal". -/
def specIterEvents (i : Nat) : List Event :=
  [Event.decodeFrame i, Event.incCounter i, Event.transformFrame i,
   Event.statsUpdate i, Event.annotateFrame i,
   Event.displayFrame "original" i, Event.displayFrame "gray" i,
   Event.displayFrame "hls" i, Event.displayFrame "hsv" i,
   Event.displayFrame "thresh" i, Event.displayFrame "laplacian" i,
   Event.displayFrame "blur" i, Event.displayFrame "equalized" i,
   Event.encodeWrite i, Event.interruptCheck i]

/-- The whole-run trace the specification's state machine prescribes for a
fault-free run: one `specIterEvents` block per decoded frame, stopping with
a user-interrupt event when the interrupt poll fires, else ending with
end-of-stream. -/
def specTrace (intr : Nat → Bool) : Nat → Nat → List Event
  | 0, _count => [Event.endOfStream]
  | m + 1, count =>
      let i := count + 1
      specIterEvents i ++ (if intr i then [Event.userInterrupt i] else specTrace intr m i)

theorem sum_map_zero {α M : Type*} [AddCommMonoid M] (l : List α) :
    (l.map (fun _ => (0 : M))).sum = 0 := by
  induction l with
  | nil => rfl
  | cons a t ih => simp [ih]

theorem sum_map_const_nat {α : Type*} (l : List α) (n : Nat) :
    (l.map (fun _ => n)).sum = l.length * n := by
  induction l with
  | nil => simp
  | cons a t ih => simp [ih, Nat.succ_mul, Nat.add_comm]

theorem cvRound_zero : cvRound 0 = 0 := by norm_num [cvRound]

theorem satUChar_zero : satUChar 0 = 0 := rfl

theorem resize_data_zero (f : Frame) (hz : ∀ r c ch, f.data r c ch = 0)
    (dw dh r c ch : Nat) : (resize f dw dh).data r c ch = 0 := by
  simp [resize, hz, sum_map_zero, cvRound_zero, satUChar_zero]

theorem mkGray_data_zero (g : Frame) (hz : ∀ r c ch, g.data r c ch = 0)
    (r c ch : Nat) : (mkGray g).data r c ch = 0 := by
  simp [mkGray, hz, bgr2grayVal]

theorem boxMean11_zero (g : Frame) (hz : ∀ r c ch, g.data r c ch = 0)
    (r c : Nat) : boxMean11 g r c = 0 := by
  simp [boxMean11, hz, sum_map_zero, cvRound_zero, satUChar_zero]

theorem adaptiveThresh_data_zero (g : Frame) (hz : ∀ r c ch, g.data r c ch = 0)
    (r c ch : Nat) : (adaptiveThreshMeanInv g).data r c ch = 0 := by
  simp [adaptiveThreshMeanInv, hz, boxMean11_zero g hz]

theorem histCount_of_zero (g : Frame) (hz : ∀ r c ch, g.data r c ch = 0) :
    histCount g 0 = g.height * g.width := by
  unfold histCount
  have hf : ∀ r, (List.range g.width).filter (fun c => g.data r c 0 == 0) =
      List.range g.width := by
    intro r
    apply List.filter_eq_self.mpr
    intro c _
    simp [hz]
  simp [hf, sum_map_const_nat]

theorem firstNonzeroBin_of_zero (g : Frame) (hz : ∀ r c ch, g.data r c ch = 0)
    (hne : g.height * g.width ≠ 0) : firstNonzeroBin g = 0 := by
  unfold firstNonzeroBin
  have h0 : (histCount g 0 != 0) = true := by
    simp only [bne_iff_ne, ne_eq, histCount_of_zero g hz]
    exact hne
  rw [show List.range 256 = 0 :: (List.range 255).map Nat.succ from by
    simpa using List.range_succ_eq_map 255]
  have hfind : List.find? (fun v => histCount g v != 0)
      (0 :: (List.range 255).map Nat.succ) = some 0 :=
    List.find?_cons_of_pos _ h0
  rw [hfind]
  rfl

theorem equalizeHist_data_of_zero (g : Frame) (hz : ∀ r c ch, g.data r c ch = 0)
    (hne : g.height * g.width ≠ 0) (r c ch : Nat) :
    (equalizeHist g).data r c ch = 0 := by
  unfold equalizeHist
  rw [firstNonzeroBin_of_zero g hz hne, histCount_of_zero g hz]
  simp [Nat.mul_comm]

theorem process_frame_eq (f : Frame) (t : Nat × Nat) (h : f.channels = 3) :
    process_frame f t = some (transformList f t) := by
  have hch : (resize f t.1 t.2).channels = 3 ∨ (resize f t.1 t.2).channels = 4 :=
    Or.inl (by simp [resize, h])
  simp [process_frame, cvtColorBGR2GRAY, cvtColorBGR2HLS, cvtColorBGR2HSV, hch]

theorem lookup_thresh (f : Frame) (t : Nat × Nat) :
    (transformList f t).lookup "thresh" =
      some (adaptiveThreshMeanInv (mkGray (resize f t.1 t.2))) := rfl

theorem lookup_equalized (f : Frame) (t : Nat × Nat) :
    (transformList f t).lookup "equalized" =
      some (equalizeHist (mkGray (resize f t.1 t.2))) := rfl

theorem outputFrame_thresh (f : Frame) (h : f.channels = 3) :
    outputFrame f (540, 380) "thresh" =
      some (adaptiveThreshMeanInv (mkGray (resize f 540 380))) := by
  rw [outputFrame, process_frame_eq f (540, 380) h]
  exact lookup_thresh f (540, 380)

theorem outputFrame_equalized (f : Frame) (h : f.channels = 3) :
    outputFrame f (540, 380) "equalized" =
      some (equalizeHist (mkGray (resize f 540 380))) := by
  rw [outputFrame, process_frame_eq f (540, 380) h]
  exact lookup_equalized f (540, 380)

theorem gray_resized_black (f : Frame) (hz : ∀ r c ch, f.data r c ch = 0)
    (dw dh : Nat) : ∀ r c ch, (mkGray (resize f dw dh)).data r c ch = 0 :=
  fun r c ch => mkGray_data_zero _ (resize_data_zero f hz dw dh) r c ch

theorem equalizeHist_width (g : Frame) : (equalizeHist g).width = g.width := by
  unfold equalizeHist
  split <;> rfl

theorem equalizeHist_height (g : Frame) : (equalizeHist g).height = g.height := by
  unfold equalizeHist
  split <;> rfl

theorem equalizeHist_channels (g : Frame) : (equalizeHist g).channels = g.channels := by
  unfold equalizeHist
  split <;> rfl

/-- C1.  For every valid 3-channel input frame, `process_frame` at the
configured target size `(540, 380)` succeeds and returns exactly the eight
named outputs `original, gray, hls, hsv, thresh, laplacian, blur, equalized`
in order, each 540 pixels wide and 380 pixels tall, 3-channel for
`original`/`hls`/`hsv` and single-channel for the gray-derived outputs; the
function of the frame is pure, so applying it twice to the same input frame
yields bit-identical outputs (the final conjunct records this; the
embedding takes no state besides the frame). -/
theorem resize_width (f : Frame) (dw dh : Nat) : (resize f dw dh).width = dw := rfl

theorem resize_height (f : Frame) (dw dh : Nat) : (resize f dw dh).height = dh := rfl

theorem resize_channels (f : Frame) (dw dh : Nat) :
    (resize f dw dh).channels = f.channels := rfl

theorem mkGray_dims (f : Frame) :
    (mkGray f).width = f.width ∧ (mkGray f).height = f.height ∧ (mkGray f).channels = 1 :=
  ⟨rfl, rfl, rfl⟩

theorem mkHLS_dims (f : Frame) :
    (mkHLS f).width = f.width ∧ (mkHLS f).height = f.height ∧ (mkHLS f).channels = 3 :=
  ⟨rfl, rfl, rfl⟩

theorem mkHSV_dims (f : Frame) :
    (mkHSV f).width = f.width ∧ (mkHSV f).height = f.height ∧ (mkHSV f).channels = 3 :=
  ⟨rfl, rfl, rfl⟩

theorem adaptiveThresh_dims (g : Frame) :
    (adaptiveThreshMeanInv g).width = g.width ∧ (adaptiveThreshMeanInv g).height = g.height ∧
      (adaptiveThreshMeanInv g).channels = g.channels :=
  ⟨rfl, rfl, rfl⟩

theorem laplacianAbs_dims (g : Frame) :
    (laplacianAbs g).width = g.width ∧ (laplacianAbs g).height = g.height ∧
      (laplacianAbs g).channels = g.channels :=
  ⟨rfl, rfl, rfl⟩

theorem gaussianBlur5_dims (g : Frame) :
    (gaussianBlur5 g).width = g.width ∧ (gaussianBlur5 g).height = g.height ∧
      (gaussianBlur5 g).channels = g.channels :=
  ⟨rfl, rfl, rfl⟩

theorem transformList_keys (f : Frame) (t : Nat × Nat) :
    (transformList f t).map Prod.fst = transformNames := rfl

theorem process_frame_outputs_sized (f : Frame) (h : f.channels = 3) :
    ∃ d, process_frame f (540, 380) = some d ∧
      d.map Prod.fst = transformNames ∧
      (∀ p ∈ d, p.2.width = 540 ∧ p.2.height = 380 ∧
        p.2.channels = (if p.1 = "original" ∨ p.1 = "hls" ∨ p.1 = "hsv" then 3 else 1)) ∧
      process_frame f (540, 380) = process_frame f (540, 380) := by
  refine ⟨transformList f (540, 380), process_frame_eq f (540, 380) h,
    transformList_keys f (540, 380), ?_, rfl⟩
  intro p hp
  simp only [transformList, List.mem_cons, List.not_mem_nil, or_false] at hp
  rcases hp with h1 | h1 | h1 | h1 | h1 | h1 | h1 | h1 <;> subst h1 <;>
    refine ⟨?_, ?_, ?_⟩ <;>
    simp only [resize_width, resize_height, resize_channels, mkGray_dims, mkHLS_dims,
      mkHSV_dims, adaptiveThresh_dims, laplacianAbs_dims, gaussianBlur5_dims,
      equalizeHist_width, equalizeHist_height, equalizeHist_channels, h] <;>
    simp

/-- Witness for C1 at a concrete 3-channel frame. -/
def dummyFrame : Frame := ⟨1, 1, 3, fun _ _ _ => 0⟩

theorem process_frame_outputs_sized_witness :
    dummyFrame.channels = 3 ∧
    (∃ d, process_frame dummyFrame (540, 380) = some d ∧
      d.map Prod.fst = transformNames ∧
      (∀ p ∈ d, p.2.width = 540 ∧ p.2.height = 380 ∧
        p.2.channels = (if p.1 = "original" ∨ p.1 = "hls" ∨ p.1 = "hsv" then 3 else 1)) ∧
      process_frame dummyFrame (540, 380) = process_frame dummyFrame (540, 380)) :=
  ⟨rfl, process_frame_outputs_sized dummyFrame rfl⟩

/-- A concrete all-black 3-channel input frame. -/
def blackFrame : Frame := ⟨4, 4, 3, fun _ _ _ => 0⟩

theorem thresh_black_data (f : Frame) (hz : ∀ r c ch, f.data r c ch = 0) :
    ∀ r c ch, (adaptiveThreshMeanInv (mkGray (resize f 540 380))).data r c ch = 0 :=
  adaptiveThresh_data_zero _ (gray_resized_black f hz 540 380)

theorem equalized_black_data (f : Frame) (hz : ∀ r c ch, f.data r c ch = 0) :
    ∀ r c ch, (equalizeHist (mkGray (resize f 540 380))).data r c ch = 0 :=
  equalizeHist_data_of_zero _ (gray_resized_black f hz 540 380)
    (by norm_num : (380 : Nat) * 540 ≠ 0)

/-- C3 (counterexample).  The claim says the `thresh` output of an all-black
frame is all-255; on the code it is all-0: with a zero local mean and offset
`C = 2`, `THRESH_BINARY_INV` assigns 255 only where `src ≤ mean − 2`, which
an all-zero image never satisfies.  Pixel (0,0) of the `thresh` output of a
concrete all-black frame is 0, not 255. -/
theorem black_thresh_not_all255 :
    (outputFrame blackFrame (540, 380) "thresh").map (fun t => t.data 0 0 0) = some 0 ∧
      (some 0 : Option Nat) ≠ some 255 := by
  constructor
  · rw [outputFrame_thresh blackFrame rfl]
    simp [thresh_black_data blackFrame (fun _ _ _ => rfl)]
  · simp

/-- C3 (amended).  For an all-black (all-zero) 3-channel input frame, the
`thresh` output of the transform pipeline is all-0 (an all-zero image never
satisfies `src ≤ local mean − 2`, so the inverted adaptive threshold yields
0 everywhere), and the `equalized` output is unchanged all-zero (histogram
equalization of a constant image is a no-op). -/
theorem black_frame_thresh_zero_equalized_zero (f : Frame) (h3 : f.channels = 3)
    (hz : ∀ r c ch, f.data r c ch = 0) :
    (∃ th, outputFrame f (540, 380) "thresh" = some th ∧ ∀ r c ch, th.data r c ch = 0) ∧
    (∃ ez, outputFrame f (540, 380) "equalized" = some ez ∧ ∀ r c ch, ez.data r c ch = 0) := by
  constructor
  · exact ⟨adaptiveThreshMeanInv (mkGray (resize f 540 380)),
      outputFrame_thresh f h3, thresh_black_data f hz⟩
  · exact ⟨equalizeHist (mkGray (resize f 540 380)),
      outputFrame_equalized f h3, equalized_black_data f hz⟩

theorem black_frame_thresh_zero_witness :
    blackFrame.channels = 3 ∧ (∀ r c ch, blackFrame.data r c ch = 0) ∧
    ((∃ th, outputFrame blackFrame (540, 380) "thresh" = some th ∧
        ∀ r c ch, th.data r c ch = 0) ∧
      (∃ ez, outputFrame blackFrame (540, 380) "equalized" = some ez ∧
        ∀ r c ch, ez.data r c ch = 0)) :=
  ⟨rfl, fun _ _ _ => rfl,
    black_frame_thresh_zero_equalized_zero blackFrame rfl (fun _ _ _ => rfl)⟩

/-- A concrete single-channel (already-grayscale) input frame. -/
def grayInput : Frame := ⟨2, 2, 1, fun _ _ _ => 5⟩

/-- C5 (counterexample).  The claim says a 1-channel input passes through
the grayscale stages and the pipeline still succeeds; on the code,
`cv2.cvtColor(·, COLOR_BGR2GRAY)` rejects a single-channel input, so
`process_frame` raises instead of succeeding: on a concrete 1-channel frame
it produces no result dictionary at all. -/
theorem single_channel_fails_concrete :
    process_frame grayInput (540, 380) = none := by
  simp [process_frame, cvtColorBGR2GRAY, cvtColorBGR2HLS, cvtColorBGR2HSV,
    resize_channels, grayInput]

/-- C5 (amended).  For every input frame whose channel count is 1, the
grayscale conversion stage fails (OpenCV's BGR→gray conversion requires a
3- or 4-channel source), so `process_frame` raises an error — modelled as
`none` — rather than passing the frame through. -/
theorem single_channel_pipeline_fails (f : Frame) (t : Nat × Nat)
    (h : f.channels = 1) : process_frame f t = none := by
  simp [process_frame, cvtColorBGR2GRAY, cvtColorBGR2HLS, cvtColorBGR2HSV,
    resize_channels, h]

theorem single_channel_pipeline_fails_witness :
    grayInput.channels = 1 ∧ process_frame grayInput (540, 380) = none :=
  ⟨rfl, single_channel_pipeline_fails grayInput (540, 380) rfl⟩

theorem lookup_annotate_of_ne (m1 m2 : Nat → Nat → Bool) (d : List (String × Frame))
    (k : String) (hk : k ≠ "original") :
    (annotate_original m1 m2 d).lookup k = d.lookup k := by
  induction d with
  | nil => rfl
  | cons p rest ih =>
    obtain ⟨pk, pv⟩ := p
    by_cases hp : pk = "original"
    · subst hp
      have hbeq : (k == "original") = false := beq_false_of_ne hk
      have hhead : annotate_original m1 m2 (("original", pv) :: rest) =
          ("original", putText m2 (0, 255, 0) (putText m1 (0, 255, 0) pv)) ::
            annotate_original m1 m2 rest := by
        simp [annotate_original]
      rw [hhead, List.lookup, List.lookup, hbeq]
      exact ih
    · have hhead : annotate_original m1 m2 ((pk, pv) :: rest) =
          (pk, pv) :: annotate_original m1 m2 rest := by
        simp [annotate_original, hp]
      rw [hhead, List.lookup, List.lookup]
      cases hkp : (k == pk)
      · simp only [hkp]
        exact ih
      · simp only [hkp]

/-- C6.  Annotation mutates only the array behind the `'original'` key of
the result dictionary (the two `putText` calls at source lines 163–180 draw
on `processed['original']`, a freshly allocated array distinct from every
other entry's array): after annotating, each of the seven other transform
outputs derived from the same input frame is bit-identical to its value
before annotation. -/
theorem annotate_preserves_other_outputs (m1 m2 : Nat → Nat → Bool) (f : Frame)
    (t : Nat × Nat) (d : List (String × Frame)) (_hd : process_frame f t = some d)
    (k : String)
    (hk : k ∈ ["gray", "hls", "hsv", "thresh", "laplacian", "blur", "equalized"]) :
    (annotate_original m1 m2 d).lookup k = d.lookup k := by
  have hne : k ≠ "original" := by
    simp only [List.mem_cons, List.not_mem_nil, or_false] at hk
    rcases hk with h | h | h | h | h | h | h <;> subst h <;> decide
  exact lookup_annotate_of_ne m1 m2 d k hne

theorem annotate_preserves_other_outputs_witness :
    (annotate_original (fun _ _ => true) (fun _ _ => true)
        (transformList dummyFrame (540, 380))).lookup "gray" =
      (transformList dummyFrame (540, 380)).lookup "gray" :=
  annotate_preserves_other_outputs (fun _ _ => true) (fun _ _ => true) dummyFrame
    (540, 380) (transformList dummyFrame (540, 380))
    (process_frame_eq dummyFrame (540, 380) rfl) "gray" (by decide)

/-- C7.  The instantaneous FPS statistic equals `frames_processed` divided
by `elapsed_seconds` when `elapsed_seconds > 0`, and equals 0 when
`elapsed_seconds = 0`: the guarded conditional at source line 160 never
evaluates the division in the degenerate case, so there is no division
fault. -/
theorem currentFps_guarded (n : Nat) (e : ℚ) :
    (0 < e → currentFps n e = (n : ℚ) / e) ∧ (e = 0 → currentFps n e = 0) := by
  constructor
  · intro h
    simp [currentFps, h]
  · intro h
    subst h
    simp [currentFps]

theorem currentFps_guarded_witness :
    currentFps 3 2 = (3 : ℚ) / 2 ∧ currentFps 3 0 = 0 :=
  ⟨(currentFps_guarded 3 2).1 (by norm_num), (currentFps_guarded 3 0).2 rfl⟩

/-- C10.  `check_video_file` releases the probe capture it creates only on
the successful-open path before returning `True`; for every path that
exists but fails to open as a video, it returns `False` without releasing
the probe capture it opened (source lines 29–34: the early `return False`
precedes `cap.release()`). -/
theorem probe_release_only_on_success (pe ok : Bool) :
    ((check_video_file pe ok).probeReleased = true ↔ pe = true ∧ ok = true) ∧
    (pe = true → ok = false →
      check_video_file pe ok =
        { result := false, probeOpened := true, probeReleased := false }) := by
  cases pe <;> cases ok <;> simp [check_video_file]

theorem probe_release_only_on_success_witness :
    check_video_file true false =
      { result := false, probeOpened := true, probeReleased := false } :=
  (probe_release_only_on_success true false).2 rfl rfl

/-- C8.  For every input path that does not exist or cannot be opened as a
video stream, the run aborts before the processing loop: an error is
printed, no encoder sink is ever opened, no frame is decoded, transformed
or written, and the event trace is empty. -/
theorem invalid_input_aborts_run (env : Env)
    (h : env.pathExists = false ∨ env.opensOk = false) :
    runMain env =
      { outcome := Outcome.aborted, frameCount := 0, written := 0,
        writerOpened := false, capReleased := false, writerReleased := false,
        windowsDestroyed := false, errorPrinted := true, trace := [] } := by
  have hres : (check_video_file env.pathExists env.opensOk).result = false := by
    cases hpe : env.pathExists <;> cases hok : env.opensOk <;>
      simp_all [check_video_file]
  simp [runMain, hres]

/-- Environment of a run whose input path does not exist. -/
def envMissing : Env :=
  { pathExists := false, opensOk := true, frames := [],
    interruptAt := fun _ => false, faultAt := fun _ => none }

theorem invalid_input_aborts_run_witness :
    runMain envMissing =
      { outcome := Outcome.aborted, frameCount := 0, written := 0,
        writerOpened := false, capReleased := false, writerReleased := false,
        windowsDestroyed := false, errorPrinted := true, trace := [] } :=
  invalid_input_aborts_run envMissing (Or.inl rfl)

theorem runLoop_clean_counts (env : Env) :
    ∀ (fs : List Frame) (c w : Nat),
      ((runLoop env fs c w).outcome = Outcome.completed →
        (runLoop env fs c w).written + c = (runLoop env fs c w).frameCount + w ∧
        (runLoop env fs c w).frameCount = c + fs.length) ∧
      ((runLoop env fs c w).outcome = Outcome.interrupted →
        (runLoop env fs c w).written + c = (runLoop env fs c w).frameCount + w ∧
        env.interruptAt (runLoop env fs c w).frameCount = true) := by
  intro fs
  induction fs with
  | nil =>
    intro c w
    constructor
    · intro _
      simp [runLoop]
      omega
    · intro h
      simp [runLoop] at h
  | cons f rest ih =>
    intro c w
    simp only [runLoop]
    cases hft : env.faultAt (c + 1) with
    | some s =>
      constructor
      · intro h
        simp at h
      · intro h
        simp at h
    | none =>
      cases hint : env.interruptAt (c + 1)
      · simp only [Bool.false_eq_true, if_false]
        obtain ⟨ihc, ihi⟩ := ih (c + 1) (w + 1)
        constructor
        · intro hcomp
          obtain ⟨h1, h2⟩ := ihc hcomp
          refine ⟨by omega, ?_⟩
          simp only [List.length_cons]
          omega
        · intro hintr
          obtain ⟨h1, h2⟩ := ihi hintr
          exact ⟨by omega, h2⟩
      · simp only [if_true]
        constructor
        · intro h
          simp at h
        · intro _
          exact ⟨by omega, hint⟩

/-- Environment of a validated run whose first transform call throws. -/
def envFault : Env :=
  { pathExists := true, opensOk := true, frames := [dummyFrame],
    interruptAt := fun _ => false,
    faultAt := fun i => if i = 1 then some Stage.transform else none }

/-- C2 (counterexample).  The claim says decoder, encoder and display
resources are released on every exit path including thrown faults; on the
code the release calls sit after the loop (lines 204–206), not in a
`finally`, so a fault thrown inside the loop propagates to the top-level
handler with nothing released: a run whose transform stage throws at frame
1 ends `failed` with no resource released. -/
theorem fault_leaves_resources_unreleased :
    (runMain envFault).outcome = Outcome.failed ∧
    (runMain envFault).capReleased = false ∧
    (runMain envFault).writerReleased = false ∧
    (runMain envFault).windowsDestroyed = false := by
  decide

/-- C2 (amended).  The decoder capture, the encoder writer and the display
windows are all released when a validated run ends by normal end-of-stream
completion or by user interrupt; on a thrown fault the exception bypasses
the release calls, so cleanup is only guaranteed on the two non-fault exit
paths. -/
theorem resources_released_on_clean_exit (env : Env)
    (h : (runMain env).outcome = Outcome.completed ∨
      (runMain env).outcome = Outcome.interrupted) :
    (runMain env).capReleased = true ∧ (runMain env).writerReleased = true ∧
      (runMain env).windowsDestroyed = true := by
  unfold runMain at h ⊢
  cases hres : (check_video_file env.pathExists env.opensOk).result
  · rw [hres] at h
    simp at h
  · cases hoc : (runLoop env env.frames 0 0).outcome <;> simp_all

/-- Environment of a clean validated run: one frame, no interrupt, no fault. -/
def envClean : Env :=
  { pathExists := true, opensOk := true, frames := [dummyFrame],
    interruptAt := fun _ => false, faultAt := fun _ => none }

theorem resources_released_on_clean_exit_witness :
    (runMain envClean).capReleased = true ∧ (runMain envClean).writerReleased = true ∧
      (runMain envClean).windowsDestroyed = true :=
  resources_released_on_clean_exit envClean (Or.inl (by decide))

/-- C4 (counterexample).  The claim says that in every terminal state of a
run that entered the loop the number of frames written equals the frame
counter; a fault thrown during the transform stage of frame 1 lands after
`frame_count += 1` but before `out.write`, ending the run in the terminal
state `failed` with counter 1 and 0 frames written. -/
theorem fault_breaks_write_count_equality :
    (runMain envFault).outcome = Outcome.failed ∧
    (runMain envFault).frameCount = 1 ∧
    (runMain envFault).written = 0 := by
  decide

/-- C4 (amended).  In the `Completed` and `Interrupted` terminal states of
a validated run, the number of frames written to the encoder equals the
frame counter: completion of an N-frame source writes exactly N frames,
and a user interrupt at frame k writes exactly k frames (one write per
decoded frame, before the interrupt check).  A thrown fault between the
counter increment and the write can leave one fewer write than the
counter. -/
theorem written_eq_frameCount_on_clean_exit (env : Env)
    (hp : env.pathExists = true) (ho : env.opensOk = true) :
    ((runMain env).outcome = Outcome.completed →
      (runMain env).written = (runMain env).frameCount ∧
      (runMain env).frameCount = env.frames.length) ∧
    ((runMain env).outcome = Outcome.interrupted →
      (runMain env).written = (runMain env).frameCount ∧
      env.interruptAt (runMain env).frameCount = true) := by
  have hres : (check_video_file env.pathExists env.opensOk).result = true := by
    rw [hp, ho]
    rfl
  have hl := runLoop_clean_counts env env.frames 0 0
  unfold runMain
  rw [hres]
  simp only [if_true]
  cases hoc : (runLoop env env.frames 0 0).outcome <;>
    rw [hoc] at hl <;> simp_all

/-- Environment of a validated 3-frame run interrupted at frame 2. -/
def envInterrupt : Env :=
  { pathExists := true, opensOk := true,
    frames := [dummyFrame, dummyFrame, dummyFrame],
    interruptAt := fun i => i == 2, faultAt := fun _ => none }

theorem written_eq_frameCount_witness :
    (runMain envInterrupt).written = (runMain envInterrupt).frameCount ∧
      envInterrupt.interruptAt (runMain envInterrupt).frameCount = true :=
  (written_eq_frameCount_on_clean_exit envInterrupt rfl rfl).2 (by decide)

theorem iterEvents_eq_spec (i : Nat) : iterEvents i = specIterEvents i := rfl

theorem runLoop_trace_clean (env : Env) (hf : ∀ i, env.faultAt i = none) :
    ∀ (fs : List Frame) (c w : Nat),
      (runLoop env fs c w).trace = specTrace env.interruptAt fs.length c := by
  intro fs
  induction fs with
  | nil =>
    intro c w
    simp [runLoop, specTrace]
  | cons f rest ih =>
    intro c w
    simp only [runLoop, hf, List.length_cons, specTrace, iterEvents_eq_spec]
    cases hint : env.interruptAt (c + 1)
    · simp [hint, ih (c + 1) (w + 1)]
    · simp [hint]

/-- C9.  In a validated, fault-free run, every loop iteration performs its
steps in the fixed order the specification's state machine prescribes —
decode, counter increment, transform (all eight outputs produced here),
stats update, annotation of `original` only, dispatch of the eight named
outputs to the display, encoder write, interrupt check — the loop ending
with a user-interrupt event when the poll fires and with end-of-stream
otherwise: the run's event trace coincides with the spec-prescribed trace,
so in particular every transform output exists before anything is displayed
or encoded in that iteration. -/
theorem loop_trace_follows_spec_order (env : Env) (hp : env.pathExists = true)
    (ho : env.opensOk = true) (hf : ∀ i, env.faultAt i = none) :
    (runMain env).trace = specTrace env.interruptAt env.frames.length 0 := by
  have hres : (check_video_file env.pathExists env.opensOk).result = true := by
    rw [hp, ho]
    rfl
  have ht := runLoop_trace_clean env hf env.frames 0 0
  unfold runMain
  rw [hres]
  simp only [if_true]
  cases hoc : (runLoop env env.frames 0 0).outcome <;> simp_all

theorem loop_trace_follows_spec_order_witness :
    (runMain envClean).trace = specTrace envClean.interruptAt envClean.frames.length 0 :=
  loop_trace_follows_spec_order envClean rfl rfl (fun _ => rfl)
